import Mathlib

/-!
# GoodGrails bookstore pipeline — shallow embedding and verification

This file embeds the core logic of the bookstore ingestion pipeline
(TypeScript, Cloudflare Workers) in Lean 4 and proves/refutes the frozen
claims about it.

Embedding conventions:
* JavaScript numbers are modelled by `ℚ` (exact real-number semantics of
  the arithmetic the code writes; IEEE double rounding is idealized away),
  integral quantities (prices in pence) by `ℤ`/`ℕ`.
* `undefined`/`null` become `Option`; JavaScript truthiness of strings
  (`""` is falsy) and of numbers (`0` is falsy) is modelled explicitly by
  `jsTruthyStr` / `jsTruthyNum`, so that `a || b` chains are faithful.
* Asynchronous effects (network fetches, storage writes) are modelled by
  passing the settled outcome of each effect as an explicit argument.
* The database is a list of rows; SQL statements are translated to the
  list operations they denote.
-/

namespace GoodGrails

/-! ## JavaScript-semantics helpers -/

/-- Truthiness of a possibly-absent JS string: `undefined`, `null` and `""`
are falsy, every other string is truthy. -/
def jsTruthyStr : Option String → Bool
  | none => false
  | some s => !(s == "")

/-- Truthiness of a possibly-absent JS number: `undefined`, `null` and `0`
are falsy (NaN does not arise in the modelled arithmetic). -/
def jsTruthyNum : Option ℚ → Bool
  | none => false
  | some q => !(q == 0)

/-- JS `a || b` on possibly-absent strings: the value of the chain is `a`'s
value when truthy, else `b`'s value (whatever it is). -/
def jsOrStr (a b : Option String) : Option String :=
  if jsTruthyStr a then a else b

/-- JS `a || b` on possibly-absent values where only definedness decides
truthiness (e.g. arrays, objects). -/
def jsOrOpt {α : Type} (a b : Option α) : Option α :=
  match a with
  | some x => some x
  | none => b

/-- JS `Math.round`: round half toward positive infinity. -/
def jsRound (q : ℚ) : ℤ := ⌊q + 1/2⌋

/-- JS `Math.ceil`. -/
def jsCeil (q : ℚ) : ℤ := ⌈q⌉

/-- JS `Math.max` on integers. -/
def jsMax (a b : ℤ) : ℤ := if a < b then b else a

/-- JS `Math.min` on integers. -/
def jsMin (a b : ℤ) : ℤ := if a < b then a else b

/-- Decidable substring test on character lists (`hay` contains `pat`),
the semantics of JS `String.prototype.includes`. -/
def containsSub (pat : List Char) : List Char → Bool
  | [] => pat.isPrefixOf []
  | c :: t => pat.isPrefixOf (c :: t) || containsSub pat t

/-- JS `hay.includes(pat)` on strings. -/
def jsIncludes (hay pat : String) : Bool :=
  containsSub pat.data hay.data

/-- JS `String.prototype.toLowerCase` (ASCII, which is all the code uses). -/
def strToLower (s : String) : String := String.mk (s.data.map Char.toLower)

/-- JS `String.prototype.toUpperCase` (ASCII). -/
def strToUpper (s : String) : String := String.mk (s.data.map Char.toUpper)

/-- JS `String.prototype.trim`: drop leading and trailing whitespace. -/
def jsTrim (s : String) : String :=
  String.mk (((s.data.dropWhile Char.isWhitespace).reverse.dropWhile
    Char.isWhitespace).reverse)

/-! ## `utils/helpers.ts` -/

/-- `BookstoreError`: an error message together with an HTTP status code. -/
structure BookstoreError where
  message : String
  statusCode : ℤ
deriving DecidableEq, Repr

/-- `poundsToPence(pounds) = Math.round(pounds * 100)`. -/
def poundsToPence (pounds : ℚ) : ℤ := jsRound (pounds * 100)

/-- Characters kept by `normalizeISBN`'s regex `[^0-9X]/gi` complement:
digits and the letter X in either case. -/
def isbnKeepChar (c : Char) : Bool := c.isDigit || c == 'X' || c == 'x'

/-- `normalizeISBN`: strip every character other than digits and `X`/`x`,
then uppercase. -/
def normalizeISBN (isbn : String) : String :=
  strToUpper (String.mk (isbn.data.filter isbnKeepChar))

/-- `isValidISBN`: the normalized identifier must have length exactly 10
or exactly 13.  No checksum is computed. -/
def isValidISBN (isbn : String) : Bool :=
  (normalizeISBN isbn).length == 10 || (normalizeISBN isbn).length == 13

/-! ## `services/metadata.ts` — pricing -/

/-- `MetadataService.calculateSuggestedPrice`: multiply the cost price by
the 3.0 base markup and a condition multiplier, `Math.ceil` the product,
subtract 0.01, and multiply by 100 with `Math.round` ("convert to pence").
Note that the code performs no division by 100 on its input. -/
def calculateSuggestedPrice (costPrice : ℤ) (condition : String) : ℤ :=
  let baseMarkup : ℚ := 3
  let conditionMultiplier : ℚ :=
    if condition == "like_new" then 12/10
    else if condition == "very_good" then 11/10
    else if condition == "good" then 1
    else if condition == "acceptable" then 8/10
    else 1
  let calculatedPrice : ℚ := (costPrice : ℚ) * baseMarkup * conditionMultiplier
  let rounded : ℚ := (jsCeil calculatedPrice : ℚ) - 1/100
  jsRound (rounded * 100)

/-! ## `services/enrichment.ts` — shock factor -/

/-- The fixed eight-keyword shock list of `calculateShockFactor`. -/
def shockKeywords : List String :=
  ["shocking", "disturbing", "graphic", "controversial",
   "provocative", "unsettling", "dark", "twisted"]

/-- `EnrichmentService.calculateShockFactor`: base score 5, plus one per
shock keyword contained in the lowercased description, clamped to
`[1, 10]` via `Math.min(Math.max(score, 1), 10)`. -/
def calculateShockFactor (description : Option String) : ℤ :=
  let score : ℤ := 5 +
    match description with
    | none => 0
    | some d =>
        ((shockKeywords.filter (fun kw => jsIncludes (strToLower d) kw)).length : ℤ)
  jsMin (jsMax score 1) 10

/-! ## `services/enrichment.ts` — remaining heuristics and `enrichBook` -/

/-- The fixed theme vocabulary of `extractThemes`. -/
def commonThemes : List String :=
  ["love", "death", "war", "family", "identity", "power",
   "betrayal", "revenge", "redemption", "coming-of-age",
   "mystery", "adventure", "romance", "tragedy"]

/-- `extractVibeKeywords`: first 100 characters of the description,
trimmed; empty string when there is no description. -/
def extractVibeKeywords (description : Option String) : String :=
  match description with
  | none => ""
  | some d => jsTrim (String.mk (d.data.take 100))

/-- `extractThemes`: all members of the theme vocabulary occurring in the
lowercased description, in vocabulary order. -/
def extractThemes (description : Option String) : List String :=
  match description with
  | none => []
  | some d =>
      let lowerDesc := strToLower d
      commonThemes.filter (fun theme => jsIncludes lowerDesc theme)

/-- The five tone keyword buckets of `inferEmotionalTone`. -/
def toneKeywords : List (String × List String) :=
  [("dark", ["dark", "grim", "bleak", "sinister", "ominous"]),
   ("uplifting", ["hope", "joy", "triumph", "inspiring", "uplifting"]),
   ("melancholic", ["sad", "melancholic", "sorrowful", "tragic", "loss"]),
   ("humorous", ["funny", "witty", "comedy", "humorous", "satire"]),
   ("intense", ["intense", "gripping", "powerful", "visceral", "raw"])]

/-- `inferEmotionalTone`: labels of buckets with a keyword occurring in the
lowercased description, else the single label `"neutral"`. -/
def inferEmotionalTone (description : Option String) : List String :=
  match description with
  | none => ["neutral"]
  | some d =>
      let lowerDesc := strToLower d
      let tones := (toneKeywords.filter
        (fun bucket => bucket.2.any (fun kw => jsIncludes lowerDesc kw))).map Prod.fst
      if tones.length > 0 then tones else ["neutral"]

/-- `inferPace`: slow/meditative cue first, then fast/thriller/action cue,
else `"moderate"`. -/
def inferPace (description : Option String) : String :=
  match description with
  | none => "moderate"
  | some d =>
      let lowerDesc := strToLower d
      if jsIncludes lowerDesc "slow" || jsIncludes lowerDesc "meditative" then
        "slow_burn"
      else if jsIncludes lowerDesc "fast" || jsIncludes lowerDesc "thriller"
          || jsIncludes lowerDesc "action" then
        "fast_paced"
      else "moderate"

/-- The atmosphere keyword buckets of `inferAtmosphere`. -/
def atmosphereKeywords : List (String × List String) :=
  [("atmospheric", ["atmospheric", "immersive", "vivid"]),
   ("dark", ["dark", "gothic", "noir"]),
   ("light", ["light", "cheerful", "bright"]),
   ("mysterious", ["mystery", "mysterious", "enigmatic"]),
   ("romantic", ["romantic", "love", "passion"])]

/-- `inferAtmosphere`: labels of buckets with a keyword occurring in the
lowercased description; may be empty. -/
def inferAtmosphere (description : Option String) : List String :=
  match description with
  | none => []
  | some d =>
      let lowerDesc := strToLower d
      (atmosphereKeywords.filter
        (fun bucket => bucket.2.any (fun kw => jsIncludes lowerDesc kw))).map Prod.fst

/-- The structured enrichment record (`AIEnrichment` in `types`). -/
structure AIEnrichment where
  emotional_tone : Option (List String)
  shock_factor : Option ℤ
  pace : Option String
  atmosphere : Option (List String)
  vibe_keywords : String
  themes : List String
  similar_to : Option (List String)
deriving DecidableEq, Repr

/-- `EnrichmentService.enrichBook` (heuristic path; the ingestion pipeline
passes no reviews, and the sample-review argument is unused by every
heuristic). The internal try block of the source cannot fail, so the
catch branch producing a minimal enrichment is unreachable here; the
orchestrator-level failure is modelled at the ingestion layer. -/
def enrichBook (_title _author : String) (description : Option String) :
    AIEnrichment :=
  { emotional_tone := some (inferEmotionalTone description)
    shock_factor := some (calculateShockFactor description)
    pace := some (inferPace description)
    atmosphere := some (inferAtmosphere description)
    vibe_keywords := extractVibeKeywords description
    themes := extractThemes description
    similar_to := some [] }

/-! ## `services/metadata.ts` — provider data and the merge policy -/

/-- An Open Library author entry (`{ name }`). -/
structure OLAuthor where
  name : String
deriving DecidableEq, Repr

/-- Provider A: data shape returned by `fetchOpenLibrary` (fields the
merge consumes; `authors` is always an array thanks to `|| []`). -/
structure OpenLibraryData where
  title : Option String
  authors : List OLAuthor
  description : Option String
  cover_url : Option String
  publish_date : Option String
  publishers : Option (List String)
  number_of_pages : Option ℤ
  subjects : Option (List String)
deriving DecidableEq, Repr

/-- Provider B: data shape returned by `fetchGoogleBooks`. -/
structure GoogleBooksData where
  title : Option String
  authors : List String
  description : Option String
  cover_url : Option String
  publishedDate : Option String
  publisher : Option String
  pageCount : Option ℤ
  categories : Option (List String)
  averageRating : Option ℚ
  ratingsCount : Option ℤ
deriving DecidableEq, Repr

/-- `ExternalMetadata`: at most one result per provider.  A field that the
fetch left unset, or that a fetcher set to `null`, is `none` here — both
are falsy and indistinguishable to every consumer in the source. -/
structure ExternalMetadata where
  open_library : Option OpenLibraryData
  google_books : Option GoogleBooksData
deriving DecidableEq, Repr

/-- The merged auxiliary metadata bag (`BookMetadata` in `types`). -/
structure BookMetadata where
  publisher : Option String
  publish_date : Option String
  page_count : Option ℤ
  language : Option String
  categories : Option (List String)
  isbn_13 : Option String
  average_rating : Option ℚ
  ratings_count : Option ℤ
deriving DecidableEq, Repr

/-- JS truthiness of a possibly-absent number used in `||` chains over
integer fields (`pageCount`): `0` is falsy. -/
def jsTruthyInt : Option ℤ → Bool
  | none => false
  | some n => !(n == 0)

/-- JS `a || b` over possibly-absent integers. -/
def jsOrInt (a b : Option ℤ) : Option ℤ :=
  if jsTruthyInt a then a else b

/-- `MetadataService.extractAuthor`, Open Library arm: join author names
with `", "` when the list is non-empty. -/
def extractAuthorOpenLibrary : Option OpenLibraryData → String
  | some o =>
      if o.authors.length > 0 then
        String.intercalate ", " (o.authors.map (fun a => a.name))
      else "Unknown Author"
  | none => "Unknown Author"

/-- `MetadataService.extractAuthor`: Google Books authors joined with
`", "` when non-empty, else Open Library authors, else the placeholder. -/
def extractAuthor (gb : Option GoogleBooksData) (ol : Option OpenLibraryData) :
    String :=
  match gb with
  | some g =>
      if g.authors.length > 0 then String.intercalate ", " g.authors
      else extractAuthorOpenLibrary ol
  | none => extractAuthorOpenLibrary ol

/-- `MetadataService.extractCoverUrl`: Google Books cover if truthy, else
Open Library cover if truthy, else `undefined` (no synthetic URL). -/
def extractCoverUrl (gb : Option GoogleBooksData) (ol : Option OpenLibraryData) :
    Option String :=
  let g := gb.bind (fun x => x.cover_url)
  let o := ol.bind (fun x => x.cover_url)
  if jsTruthyStr g then g else if jsTruthyStr o then o else none

/-- `MetadataService.extractISBN13`: returns `undefined` on both arms of
its conditional. -/
def extractISBN13 (gb : Option GoogleBooksData)
    (_ol : Option OpenLibraryData) : Option String :=
  match gb with
  | some _ => none
  | none => none

/-- The result shape of `MetadataService.mergeMetadata`. -/
structure MergedMetadata where
  title : String
  author : String
  description : Option String
  cover_url : Option String
  metadata : BookMetadata
deriving DecidableEq, Repr

/-- `MetadataService.mergeMetadata`: field-by-field `||` precedence of
Google Books over Open Library, with literal placeholders for title and
author. -/
def mergeMetadata (external : ExternalMetadata) : MergedMetadata :=
  let ol := external.open_library
  let gb := external.google_books
  let title :=
    (jsOrStr (jsOrStr (gb.bind (fun g => g.title)) (ol.bind (fun o => o.title)))
      (some "Unknown Title")).getD "Unknown Title"
  let author := extractAuthor gb ol
  let description :=
    jsOrStr (gb.bind (fun g => g.description)) (ol.bind (fun o => o.description))
  let cover_url := extractCoverUrl gb ol
  { title := title
    author := author
    description := description
    cover_url := cover_url
    metadata :=
      { publisher := jsOrStr (gb.bind (fun g => g.publisher))
          (ol.bind (fun o => o.publishers.bind List.head?))
        publish_date := jsOrStr (gb.bind (fun g => g.publishedDate))
          (ol.bind (fun o => o.publish_date))
        page_count := jsOrInt (gb.bind (fun g => g.pageCount))
          (ol.bind (fun o => o.number_of_pages))
        language := some "en"
        categories := jsOrOpt (gb.bind (fun g => g.categories))
          (ol.bind (fun o => o.subjects.map (fun s => s.take 5)))
        isbn_13 := extractISBN13 gb ol
        average_rating := gb.bind (fun g => g.averageRating)
        ratings_count := gb.bind (fun g => g.ratingsCount) } }

/-! ## `services/metadata.ts` — `fetchMetadata` aggregation -/

/-- The settled outcome of one provider lookup promise, as observed after
`Promise.allSettled`: fulfilled with a nullable value, or rejected. -/
inductive Settled (α : Type) where
  | fulfilled (v : Option α)
  | rejected
deriving DecidableEq, Repr

/-- The provider result that `fetchMetadata` records for a settled
lookup: the fulfilled value (possibly `null` = `none`), and nothing for a
rejected promise. -/
def Settled.value {α : Type} : Settled α → Option α
  | .fulfilled v => v
  | .rejected => none

/-- `MetadataService.fetchMetadata`: record each fulfilled result, then
fail with a 404-class error when both provider results are absent,
otherwise return whatever exists.  The two network lookups are issued
concurrently; their settled outcomes are the two arguments. -/
def fetchMetadata (isbn : String) (openLibrary : Settled OpenLibraryData)
    (googleBooks : Settled GoogleBooksData) :
    Except BookstoreError ExternalMetadata :=
  let metadata : ExternalMetadata :=
    { open_library := openLibrary.value, google_books := googleBooks.value }
  if metadata.open_library.isNone && metadata.google_books.isNone then
    .error { message := "Could not fetch metadata for ISBN: " ++ isbn
             statusCode := 404 }
  else
    .ok metadata

/-! ## `types` / `schema.sql` — the Book entity -/

/-- Workflow status of a book (`CHECK(status IN ...)` in the schema). -/
inductive BookStatus where
  | draft
  | pending_review
  | live
  | sold
  | removed
deriving DecidableEq, Repr

/-- The Book row.  Prices are integral minor units (pence); `condition`
stays a string because `calculateSuggestedPrice` switches on arbitrary
strings with a default multiplier. -/
structure Book where
  id : String
  isbn : String
  title : String
  author : String
  description : Option String
  cover_url : Option String
  condition : String
  cost_price : ℤ
  sell_price : ℤ
  in_stock : Bool
  metadata : Option BookMetadata
  vibe_tags : Option String
  ai_enrichment : Option AIEnrichment
  review_summary : Option String
  vector_id : Option String
  status : BookStatus
  created_at : String
  updated_at : String
  sold_at : Option String
deriving DecidableEq, Repr

/-- `Partial<Book>`: every field optional.  Used both as the input of
`createBook` and as the update payload of `updateBook`. -/
structure BookData where
  id : Option String := none
  isbn : Option String := none
  title : Option String := none
  author : Option String := none
  description : Option String := none
  cover_url : Option String := none
  condition : Option String := none
  cost_price : Option ℤ := none
  sell_price : Option ℤ := none
  in_stock : Option Bool := none
  metadata : Option BookMetadata := none
  vibe_tags : Option String := none
  ai_enrichment : Option AIEnrichment := none
  review_summary : Option String := none
  vector_id : Option String := none
  status : Option BookStatus := none
  created_at : Option String := none
  updated_at : Option String := none
  sold_at : Option String := none
deriving DecidableEq, Repr

/-! ## `services/database.ts` — `DatabaseService`

The D1 database is modelled as the list of book rows; each SQL statement
is translated to the list operation it denotes.  `generateUUID` and
`getCurrentTimestamp` are impure, so the fresh id and the current
timestamp are explicit arguments. -/

/-- `DatabaseService.createBook`: builds the row — forcing
`in_stock: true`, defaulting `condition` via `|| 'good'` and `status` via
`|| 'draft'`, and stamping `created_at = updated_at = now` — and inserts
it.  The source asserts presence of `isbn`/`title`/`author`/prices with
`!`; an absent value would flow through as `undefined`, modelled by a
neutral default (every caller supplies them). -/
def createBook (db : List Book) (bookData : BookData) (id now : String) :
    Book × List Book :=
  let book : Book :=
    { id := id
      isbn := bookData.isbn.getD ""
      title := bookData.title.getD ""
      author := bookData.author.getD ""
      description := bookData.description
      cover_url := bookData.cover_url
      condition := (jsOrStr bookData.condition (some "good")).getD "good"
      cost_price := bookData.cost_price.getD 0
      sell_price := bookData.sell_price.getD 0
      in_stock := true
      metadata := bookData.metadata
      vibe_tags := bookData.vibe_tags
      ai_enrichment := bookData.ai_enrichment
      review_summary := bookData.review_summary
      vector_id := bookData.vector_id
      status := bookData.status.getD .draft
      created_at := now
      updated_at := now
      sold_at := none }
  (book, db ++ [book])

/-- `DatabaseService.getBook`: `SELECT * FROM books WHERE id = ?`. -/
def getBook (db : List Book) (id : String) : Option Book :=
  db.find? (fun b => b.id == id)

/-- `DatabaseService.getBookByISBN`:
`SELECT * FROM books WHERE isbn = ? LIMIT 1`. -/
def getBookByISBN (db : List Book) (isbn : String) : Option Book :=
  db.find? (fun b => b.isbn == isbn)

/-- Whether the update payload contains any member of the fixed
`allowedFields` list of `DatabaseService.updateBook` (`!== undefined`). -/
def hasAllowedField (updates : BookData) : Bool :=
  updates.title.isSome || updates.author.isSome || updates.description.isSome ||
  updates.cover_url.isSome || updates.sell_price.isSome ||
  updates.in_stock.isSome || updates.metadata.isSome ||
  updates.vibe_tags.isSome || updates.ai_enrichment.isSome ||
  updates.review_summary.isSome || updates.vector_id.isSome ||
  updates.status.isSome

/-- The row produced by `DatabaseService.updateBook`'s dynamic
`UPDATE books SET ...` statement: each allow-listed field present in the
payload overwrites the column, `updated_at` is refreshed; with no allowed
field present, the row is returned untouched (early `return existing`). -/
def applyBookUpdates (existing : Book) (updates : BookData) (now : String) :
    Book :=
  if hasAllowedField updates then
    { existing with
      title := updates.title.getD existing.title
      author := updates.author.getD existing.author
      description := jsOrOpt updates.description existing.description
      cover_url := jsOrOpt updates.cover_url existing.cover_url
      sell_price := updates.sell_price.getD existing.sell_price
      in_stock := updates.in_stock.getD existing.in_stock
      metadata := jsOrOpt updates.metadata existing.metadata
      vibe_tags := jsOrOpt updates.vibe_tags existing.vibe_tags
      ai_enrichment := jsOrOpt updates.ai_enrichment existing.ai_enrichment
      review_summary := jsOrOpt updates.review_summary existing.review_summary
      vector_id := jsOrOpt updates.vector_id existing.vector_id
      status := updates.status.getD existing.status
      updated_at := now }
  else existing

/-- `DatabaseService.updateBook`: `null` when the book does not exist,
else the updated row (re-read by id after the UPDATE) together with the
new table state. -/
def updateBook (db : List Book) (id : String) (updates : BookData)
    (now : String) : Option (Book × List Book) :=
  match getBook db id with
  | none => none
  | some existing =>
      let updated := applyBookUpdates existing updates now
      some (updated, db.map (fun b => if b.id == id then updated else b))

/-! ## `services/storage.ts` — `StorageService.uploadBookCover`

The two effects inside the try block — the image download and the R2
write — are modelled by their outcomes, passed as arguments. -/

/-- Outcome of `fetch(imageUrl)`: the fetch threw, the response was not
ok, or it succeeded with the declared content type
(`headers.get('content-type')`, nullable). -/
inductive FetchOutcome where
  | failed
  | notOk
  | ok (contentType : Option String)
deriving DecidableEq, Repr

/-- Outcome of `env.ASSETS.put`. -/
inductive PutOutcome where
  | failed
  | success
deriving DecidableEq, Repr

/-- `StorageService.getFileExtension`: fixed content-type map with `.jpg`
default (record lookup `|| '.jpg'`). -/
def getFileExtension (contentType : String) : String :=
  if contentType == "image/jpeg" then ".jpg"
  else if contentType == "image/jpg" then ".jpg"
  else if contentType == "image/png" then ".png"
  else if contentType == "image/gif" then ".gif"
  else if contentType == "image/webp" then ".webp"
  else if contentType == "application/pdf" then ".pdf"
  else ".jpg"

/-- `StorageService.getPublicUrl` (the enabled "serve through Worker"
option). -/
def getPublicUrl (key : String) : String := "/assets/" ++ key

/-- `StorageService.uploadBookCover`: download the image and write it
under `covers/<bookId><ext>`; every failure path lands in the catch
block, which returns the original external URL unchanged. -/
def uploadBookCover (bookId imageUrl : String) (download : FetchOutcome)
    (store : PutOutcome) : String :=
  match download with
  | .failed => imageUrl
  | .notOk => imageUrl
  | .ok declaredType =>
      let contentType := (jsOrStr declaredType (some "image/jpeg")).getD "image/jpeg"
      let key := "covers/" ++ bookId ++ getFileExtension contentType
      match store with
      | .failed => imageUrl
      | .success => getPublicUrl key

/-! ## `services/ingestion.ts` — `IngestionService` -/

/-- Admin edits accepted by `approveBook`. -/
structure ApproveUpdates where
  final_price : Option ℚ := none
  title : Option String := none
  author : Option String := none
  description : Option String := none
  vibe_tags : Option String := none
deriving DecidableEq, Repr

/-- Keep a string only when truthy (`if (updates.title) ...`). -/
def jsFilterStr (s : Option String) : Option String :=
  if jsTruthyStr s then s else none

/-- The update payload that `IngestionService.approveBook` builds:
`status: 'live'` plus any truthy custom edits; a truthy `final_price`
(pounds) becomes `sell_price` in pence. -/
def approveUpdateData (updates : Option ApproveUpdates) : BookData :=
  let base : BookData := { status := some .live }
  match updates with
  | none => base
  | some u =>
      { base with
        sell_price :=
          if jsTruthyNum u.final_price then
            some (poundsToPence (u.final_price.getD 0))
          else none
        title := jsFilterStr u.title
        author := jsFilterStr u.author
        description := jsFilterStr u.description
        vibe_tags := jsFilterStr u.vibe_tags }

/-- `IngestionService.approveBook`: 404 when the book is missing, 400
when it is already live, otherwise apply the approval update. -/
def approveBook (db : List Book) (bookId : String)
    (updates : Option ApproveUpdates) (now : String) :
    Except BookstoreError (Book × List Book) :=
  match getBook db bookId with
  | none => .error { message := "Book not found", statusCode := 404 }
  | some book =>
      if book.status = .live then
        .error { message := "Book is already live", statusCode := 400 }
      else
        match updateBook db bookId (approveUpdateData updates) now with
        | none => .error { message := "Failed to update book", statusCode := 500 }
        | some (updatedBook, db2) => .ok (updatedBook, db2)

/-- The request body of `POST /api/admin/books/ingest` (`cost_price` in
pounds). -/
structure IngestBookRequest where
  isbn : String
  condition : String
  cost_price : ℚ
  custom_title : Option String := none
  custom_author : Option String := none
deriving DecidableEq, Repr

/-- The success payload of `ingestBook` (`suggested_price` converted back
to pounds for display). -/
structure IngestBookResponse where
  success : Bool
  book_id : String
  book : Book
  metadata : ExternalMetadata
  suggested_price : ℚ
  errors : Option (List String)
deriving DecidableEq, Repr

/-- The impure inputs of one `ingestBook` run: the settled provider
lookups, whether the enrichment step threw (caught by the orchestrator as
a soft error), the generated UUID, the timestamp, and the cover-transfer
effect outcomes. -/
structure IngestWorld where
  openLibrary : Settled OpenLibraryData
  googleBooks : Settled GoogleBooksData
  enrichmentFails : Bool
  newId : String
  now : String
  coverDownload : FetchOutcome
  coverStore : PutOutcome
deriving Repr

/-- Everything `ingestBook` has computed by the end of step 7 (just
before the database write). -/
structure IngestPrep where
  externalMetadata : ExternalMetadata
  merged : MergedMetadata
  title : String
  author : String
  ai_enrichment : Option AIEnrichment
  softErrors : List String
  cost_price_pence : ℤ
  suggested_price : ℤ
deriving DecidableEq, Repr

/-- Steps 1–7 of `IngestionService.ingestBook`: validation, duplicate
check, metadata fetch (wrapped into a 404 `BookstoreError`), merge,
custom-override of title/author, best-effort enrichment, and pricing.
Every throwing path of the pipeline is here. -/
def ingestPrepare (request : IngestBookRequest) (db : List Book)
    (openLibrary : Settled OpenLibraryData)
    (googleBooks : Settled GoogleBooksData) (enrichmentFails : Bool) :
    Except BookstoreError IngestPrep :=
  if !(isValidISBN request.isbn) then
    .error { message := "Invalid ISBN format", statusCode := 400 }
  else if request.cost_price ≤ 0 then
    .error { message := "Cost price must be greater than 0", statusCode := 400 }
  else
    match getBookByISBN db request.isbn with
    | some existing =>
        .error { message := "Book with ISBN " ++ request.isbn ++
                   " already exists (ID: " ++ existing.id ++ ")"
                 statusCode := 409 }
    | none =>
        match fetchMetadata request.isbn openLibrary googleBooks with
        | .error e =>
            .error { message := "Failed to fetch metadata: " ++ e.message
                     statusCode := 404 }
        | .ok externalMetadata =>
            let merged := mergeMetadata externalMetadata
            let title :=
              if jsTruthyStr request.custom_title then
                request.custom_title.getD ""
              else merged.title
            let author :=
              if jsTruthyStr request.custom_author then
                request.custom_author.getD ""
              else merged.author
            let enrichment : Option AIEnrichment × List String :=
              if enrichmentFails then
                (none, ["AI enrichment failed - using defaults"])
              else (some (enrichBook title author merged.description), [])
            .ok { externalMetadata := externalMetadata
                  merged := merged
                  title := title
                  author := author
                  ai_enrichment := enrichment.1
                  softErrors := enrichment.2
                  cost_price_pence := poundsToPence request.cost_price
                  suggested_price :=
                    calculateSuggestedPrice (poundsToPence request.cost_price)
                      request.condition }

/-- Steps 8–10 of `IngestionService.ingestBook`: create the row (status
`pending_review`, price fields in pence), then best-effort cover
transfer — the book's cover reference is replaced only when the transfer
produced a different URL — and build the response. -/
def ingestFinalize (request : IngestBookRequest) (prep : IngestPrep)
    (newId now : String) (download : FetchOutcome) (store : PutOutcome)
    (db : List Book) : IngestBookResponse × List Book :=
  let bookData : BookData :=
    { isbn := some request.isbn
      title := some prep.title
      author := some prep.author
      description := prep.merged.description
      cover_url := prep.merged.cover_url
      condition := some request.condition
      cost_price := some prep.cost_price_pence
      sell_price := some prep.suggested_price
      in_stock := some true
      metadata := some prep.merged.metadata
      vibe_tags := prep.ai_enrichment.map (fun e => e.vibe_keywords)
      ai_enrichment := prep.ai_enrichment
      status := some .pending_review }
  let created := createBook db bookData newId now
  let createdBook := created.1
  let db1 := created.2
  let final : Book × List Book :=
    if jsTruthyStr prep.merged.cover_url && !(createdBook.id == "") then
      let originalUrl := prep.merged.cover_url.getD ""
      let uploadedCoverUrl :=
        uploadBookCover createdBook.id originalUrl download store
      if uploadedCoverUrl ≠ originalUrl then
        let afterUpdate :=
          match updateBook db1 createdBook.id
              { cover_url := some uploadedCoverUrl } now with
          | some (_, db2) => db2
          | none => db1
        ({ createdBook with cover_url := some uploadedCoverUrl }, afterUpdate)
      else (createdBook, db1)
    else (createdBook, db1)
  ({ success := true
     book_id := final.1.id
     book := final.1
     metadata := prep.externalMetadata
     suggested_price := (prep.suggested_price : ℚ) / 100
     errors := if prep.softErrors.length > 0 then some prep.softErrors else none },
   final.2)

/-- `IngestionService.ingestBook`: the full pipeline.  Returns the
response (or the thrown `BookstoreError`) together with the table state
afterwards. -/
def ingestBook (request : IngestBookRequest) (world : IngestWorld)
    (db : List Book) : Except BookstoreError IngestBookResponse × List Book :=
  match ingestPrepare request db world.openLibrary world.googleBooks
      world.enrichmentFails with
  | .error e => (.error e, db)
  | .ok prep =>
      let r := ingestFinalize request prep world.newId world.now
        world.coverDownload world.coverStore db
      (.ok r.1, r.2)

/-! ## `services/database.ts` — keyword search, and `routes/public.ts`

`searchBooksByKeyword` runs one SQL query over the `books_fts` FTS5 table
joined back to `books` on rowid.  The FTS table rows carry exactly the
indexed text columns of the schema (`title`, `author`, `description`,
`vibe_tags`); which rows MATCH a query, and with which `bm25` score, is
the engine's business, so it is an oracle argument: a function from the
indexed text to an optional score.  The `books` table here also carries
each row's SQLite rowid for the join. -/

/-- One row of the `books_fts` index (schema: `book_id UNINDEXED, title,
author, description, vibe_tags`), with its rowid. -/
structure FtsRow where
  rowid : ℕ
  book_id : String
  title : String
  author : String
  description : Option String
  vibe_tags : Option String
deriving DecidableEq, Repr

/-- The `JOIN ... ON b.rowid = fts.rowid WHERE fts MATCH ? AND b.status =
'live' AND b.in_stock = 1` part of the query: every matching FTS row is
paired with its bm25 score and the joined live, in-stock book. -/
def joinLiveMatches (books : List (ℕ × Book)) (fts : List FtsRow)
    (matchScore : FtsRow → Option ℚ) : List (ℚ × Book) :=
  fts.filterMap (fun row =>
    match matchScore row with
    | none => none
    | some score =>
        (books.find? (fun p => p.1 == row.rowid)).bind (fun p =>
          if p.2.status = .live ∧ p.2.in_stock = true then
            some (score, p.2)
          else none))

/-- `ORDER BY bm25(books_fts)`: sort ascending by score (SQLite's native
convention: lower is more relevant). -/
def sortByScore (l : List (ℚ × Book)) : List (ℚ × Book) :=
  l.insertionSort (fun a b => a.1 ≤ b.1)

/-- `DatabaseService.searchBooksByKeyword`: the joined, filtered rows,
ascending by bm25 score, limited, projected to the book columns. -/
def searchBooksByKeyword (books : List (ℕ × Book)) (fts : List FtsRow)
    (matchScore : FtsRow → Option ℚ) (limit : ℕ) : List Book :=
  (((sortByScore (joinLiveMatches books fts matchScore)).take limit).map
    Prod.snd)

/-- The success payload of `GET /api/search`. -/
structure SearchResponse where
  query : String
  results : List Book
  total : ℕ
deriving DecidableEq, Repr

/-- `routes/public.ts` `searchBooks`: 400 for an absent or blank query,
else the keyword search results with `total = results.length`. -/
def searchBooksRoute (q : Option String) (limit : ℕ)
    (books : List (ℕ × Book)) (fts : List FtsRow)
    (matchScore : FtsRow → Option ℚ) :
    Except BookstoreError SearchResponse :=
  match q with
  | none => .error { message := "Search query is required", statusCode := 400 }
  | some query =>
      if !(jsTruthyStr (some query)) || (jsTrim query).length == 0 then
        .error { message := "Search query is required", statusCode := 400 }
      else
        let results := searchBooksByKeyword books fts matchScore limit
        .ok { query := query, results := results, total := results.length }

/-! ## Spec-side definitions

Restatements of claim-level properties in the spec's vocabulary, used to
compare the embedded code against the claims. -/

/-- Spec side (C5): the keyword occurs as a case-insensitive substring of
the description. -/
def occursCaseInsensitive (kw d : String) : Bool :=
  jsIncludes (strToLower d) (strToLower kw)

/-- Spec side (C3, amended): a field value counts as present only when it
is a non-empty string. -/
def presentNonempty : Option String → Option String
  | none => none
  | some s => if s = "" then none else some s

/-- Spec side (C3, amended): merged title — B's if present non-empty,
else A's if present non-empty, else the literal placeholder. -/
def policyTitle (external : ExternalMetadata) : String :=
  match presentNonempty (external.google_books.bind (fun g => g.title)) with
  | some t => t
  | none =>
      match presentNonempty (external.open_library.bind (fun o => o.title)) with
      | some t => t
      | none => "Unknown Title"

/-- Spec side (C3): merged author — B's authors joined with `", "` when
the list is non-empty, else A's, else the placeholder. -/
def policyAuthor (external : ExternalMetadata) : String :=
  match external.google_books with
  | some g =>
      if g.authors ≠ [] then String.intercalate ", " g.authors
      else
        match external.open_library with
        | some o =>
            if o.authors ≠ [] then
              String.intercalate ", " (o.authors.map (fun a => a.name))
            else "Unknown Author"
        | none => "Unknown Author"
  | none =>
      match external.open_library with
      | some o =>
          if o.authors ≠ [] then
            String.intercalate ", " (o.authors.map (fun a => a.name))
          else "Unknown Author"
      | none => "Unknown Author"

/-- Spec side (C3, amended): merged description — B's if present
non-empty, else A's value unmodified. -/
def policyDescription (external : ExternalMetadata) : Option String :=
  match presentNonempty (external.google_books.bind (fun g => g.description)) with
  | some d => some d
  | none => external.open_library.bind (fun o => o.description)

/-- Spec side (C3, amended): merged cover — B's if present non-empty,
else A's if present non-empty, else absent (never synthesized). -/
def policyCover (external : ExternalMetadata) : Option String :=
  match presentNonempty (external.google_books.bind (fun g => g.cover_url)) with
  | some c => some c
  | none =>
      match presentNonempty (external.open_library.bind (fun o => o.cover_url)) with
      | some c => some c
      | none => none

/-- Spec side (C6): the asset transfer did not fully succeed — the
download threw, the response was not ok, or the storage write threw. -/
def transferFails (download : FetchOutcome) (store : PutOutcome) : Bool :=
  match download, store with
  | .ok _, .success => false
  | _, _ => true

/-! ## Concrete fixtures for counterexamples and witnesses -/

/-- A stored book whose status is `removed` (e.g. after a reject). -/
def removedBookFixture : Book :=
  { id := "b1"
    isbn := "9780000000001"
    title := "Removed Book"
    author := "A. Uthor"
    description := none
    cover_url := none
    condition := "good"
    cost_price := 100
    sell_price := 300
    in_stock := true
    metadata := none
    vibe_tags := none
    ai_enrichment := none
    review_summary := none
    vector_id := none
    status := .removed
    created_at := "2025-10-01T00:00:00Z"
    updated_at := "2025-10-01T00:00:00Z"
    sold_at := none }

/-- A stored book awaiting review. -/
def pendingBookFixture : Book :=
  { removedBookFixture with
    id := "b2"
    isbn := "9780000000002"
    title := "Pending Book"
    status := .pending_review }

/-- An Open Library result carrying only a title. -/
def olTitleOnlyFixture : OpenLibraryData :=
  { title := some "The Moonstone"
    authors := []
    description := none
    cover_url := none
    publish_date := none
    publishers := none
    number_of_pages := none
    subjects := none }

/-- A Google Books result whose title is present but empty. -/
def gbEmptyTitleFixture : GoogleBooksData :=
  { title := some ""
    authors := []
    description := none
    cover_url := none
    publishedDate := none
    publisher := none
    pageCount := none
    categories := none
    averageRating := none
    ratingsCount := none }

/-- Provider pair where B's title is present (as the empty string) and
A's title is a real one. -/
def emptyTitleExternalFixture : ExternalMetadata :=
  { open_library := some olTitleOnlyFixture
    google_books := some gbEmptyTitleFixture }

/-- The bm25 ordering relation on scored rows is total. -/
instance : IsTotal (ℚ × Book) (fun x y => x.1 ≤ y.1) :=
  ⟨fun a b => le_total a.1 b.1⟩

/-- The bm25 ordering relation on scored rows is transitive. -/
instance : IsTrans (ℚ × Book) (fun x y => x.1 ≤ y.1) :=
  ⟨fun _ _ _ h1 h2 => le_trans h1 h2⟩

/-! # Theorems -/

/-! ## Helper lemmas -/

/-- `jsMin (jsMax · 1) 10` is the standard clamp to `[1, 10]`. -/
theorem jsClamp_eq_clamp (x : ℤ) : jsMin (jsMax x 1) 10 = min (max x 1) 10 := by
  simp only [jsMin, jsMax]
  split_ifs <;> omega

/-- **C1.**  The claim states that `calculateSuggestedPrice(c, condition)`
computes its markup product in major units (`c/100`), yielding 1699 pence
at cost 500 pence / `very_good`.  The code multiplies the minor-unit
input directly (`costPrice * 3.0 * multiplier`, no division by 100) and
then multiplies by 100 once more ("convert to pence"), yielding 164999:
the function's own `3x markup` / `Convert to pence` comments are
contradicted when it is fed pence by `ingestBook`. -/
theorem C1_calculateSuggestedPrice_at_failing_input :
    calculateSuggestedPrice 500 "very_good" = 164999 ∧
    calculateSuggestedPrice 500 "very_good" ≠ 1699 := by
  have h : calculateSuggestedPrice 500 "very_good" = 164999 := by
    simp only [calculateSuggestedPrice]
    norm_num [jsCeil, jsRound]
    rw [if_neg (show ¬("very_good" : String) = "like_new" by decide)]
    norm_num
  exact ⟨h, by rw [h]; decide⟩

/-- **C10.**  `DatabaseService.createBook` stores the row with
`in_stock = true` no matter what the caller supplied, defaults the status
to `draft`, stamps `created_at = updated_at`, and appends the row. -/
theorem C10_createBook_invariants (db : List Book) (bookData : BookData)
    (id now : String) :
    (createBook db bookData id now).1.in_stock = true
    ∧ (createBook db bookData id now).1.status = bookData.status.getD .draft
    ∧ (createBook db bookData id now).1.created_at = now
    ∧ (createBook db bookData id now).1.updated_at = now
    ∧ (createBook db bookData id now).1.created_at =
        (createBook db bookData id now).1.updated_at
    ∧ (createBook db bookData id now).2 =
        db ++ [(createBook db bookData id now).1] :=
  ⟨rfl, rfl, rfl, rfl, rfl, rfl⟩

/-- **C8.**  ISBN validation passes exactly when the characters kept by
the normalizing strip (digits and `X`/`x`) number 10 or 13 — no checksum
is involved — and an invalid identifier short-circuits `ingestBook` with
a 400 client error, leaving the table untouched. -/
theorem C8_isbn_validation (isbn : String) (world : IngestWorld)
    (db : List Book) (condition : String) (cost : ℚ) (ct ca : Option String) :
    (isValidISBN isbn = true ↔
      ((isbn.data.filter isbnKeepChar).length = 10 ∨
       (isbn.data.filter isbnKeepChar).length = 13))
    ∧ (isValidISBN isbn = false →
        ingestBook
          { isbn := isbn, condition := condition, cost_price := cost,
            custom_title := ct, custom_author := ca } world db =
        (.error { message := "Invalid ISBN format", statusCode := 400 }, db)) := by
  constructor
  · have hlen : (normalizeISBN isbn).length =
        (isbn.data.filter isbnKeepChar).length := by
      simp [normalizeISBN, strToUpper, String.length]
    simp [isValidISBN, hlen]
  · intro h
    simp [ingestBook, ingestPrepare, h]

/-- **C8 witness.** -/
theorem C8_isbn_validation_witness :
    isValidISBN "978-0-375-75785-3" = true ∧
    (("978-0-375-75785-3".data.filter isbnKeepChar).length = 10 ∨
     ("978-0-375-75785-3".data.filter isbnKeepChar).length = 13) :=
  ⟨by decide,
   (C8_isbn_validation "978-0-375-75785-3"
      { openLibrary := .rejected, googleBooks := .rejected,
        enrichmentFails := false, newId := "id", now := "t",
        coverDownload := .failed, coverStore := .failed }
      [] "good" 5 none none).1.mp (by decide)⟩

/-- **C5.**  The enrichment intensity (shock) score is 5 plus 1 per
distinct member of the fixed eight-keyword shock list occurring as a
case-insensitive substring of the description, clamped to `[1, 10]`;
with no description it is 5. -/
theorem C5_shock_factor_spec (d : String) :
    calculateShockFactor (some d) =
      min (max (5 + ((shockKeywords.filter
        (fun kw => occursCaseInsensitive kw d)).length : ℤ)) 1) 10
    ∧ 1 ≤ calculateShockFactor (some d)
    ∧ calculateShockFactor (some d) ≤ 10
    ∧ calculateShockFactor none = 5 := by
  have hfilter : shockKeywords.filter (fun kw => jsIncludes (strToLower d) kw)
      = shockKeywords.filter (fun kw => occursCaseInsensitive kw d) := by
    apply List.filter_congr
    intro kw hkw
    fin_cases hkw <;> rfl
  have hmain : calculateShockFactor (some d) =
      min (max (5 + ((shockKeywords.filter
        (fun kw => occursCaseInsensitive kw d)).length : ℤ)) 1) 10 := by
    simp only [calculateShockFactor, hfilter, jsClamp_eq_clamp]
  refine ⟨hmain, ?_, ?_, rfl⟩
  · rw [hmain]; omega
  · rw [hmain]; omega

/-- **C5 witness.** -/
theorem C5_shock_factor_witness :
    calculateShockFactor (some "A DARK and Twisted, shocking tale") =
      min (max (5 + ((shockKeywords.filter (fun kw =>
        occursCaseInsensitive kw "A DARK and Twisted, shocking tale")).length : ℤ)) 1) 10
    ∧ calculateShockFactor (some "A DARK and Twisted, shocking tale") = 8 :=
  ⟨(C5_shock_factor_spec "A DARK and Twisted, shocking tale").1, by decide⟩

/-- **C2 counterexample.**  The claim says only `draft` and
`pending_review` admit approval.  But `approveBook` rejects only a book
that is already `live`: a stored book with status `removed` is approved
successfully and set to `live`. -/
theorem C2_counterexample :
    removedBookFixture.status = .removed
    ∧ removedBookFixture.status ≠ .draft
    ∧ removedBookFixture.status ≠ .pending_review
    ∧ (approveBook [removedBookFixture] "b1" none
        "2025-10-02T00:00:00Z").isOk = true
    ∧ (approveBook [removedBookFixture] "b1" none
        "2025-10-02T00:00:00Z").toOption.map (fun p => p.1.status) =
        some .live := by
  exact ⟨rfl, by decide, by decide, rfl, rfl⟩

/-- **C2 (amended).**  `approveBook` on an existing book succeeds — with
status set to `live` and a truthy price override applied in pence —
exactly when the book's status is **not** `live` (so `draft`,
`pending_review`, `sold` and `removed` all admit approval); on a live
book it fails with a 400 error rather than being a no-op. -/
theorem C2_approveBook_amended (db : List Book) (bookId : String)
    (updates : Option ApproveUpdates) (now : String) (book : Book)
    (h : getBook db bookId = some book) :
    ((approveBook db bookId updates now).isOk = true ↔ book.status ≠ .live)
    ∧ (book.status = .live →
        approveBook db bookId updates now =
          .error { message := "Book is already live", statusCode := 400 })
    ∧ (∀ b2 db2, approveBook db bookId updates now = .ok (b2, db2) →
        b2.status = .live
        ∧ (∀ u p, updates = some u → u.final_price = some p → ¬ p = 0 →
            b2.sell_price = poundsToPence p)
        ∧ (∀ u, updates = some u → jsTruthyNum u.final_price = false →
            b2.sell_price = book.sell_price)
        ∧ (updates = none → b2.sell_price = book.sell_price)) := by
  by_cases hl : book.status = .live
  · refine ⟨?_, ?_, ?_⟩
    · simp [approveBook, h, hl, Except.isOk, Except.toBool]
    · intro _
      simp [approveBook, h, hl]
    · intro b2 db2 hok
      simp [approveBook, h, hl] at hok
  · have hstep : approveBook db bookId updates now =
        .ok (applyBookUpdates book (approveUpdateData updates) now,
          db.map (fun b => if b.id == bookId then
            applyBookUpdates book (approveUpdateData updates) now else b)) := by
      simp [approveBook, h, hl, updateBook]
    refine ⟨?_, fun hc => absurd hc hl, ?_⟩
    · simp [hstep, hl, Except.isOk, Except.toBool]
    · intro b2 db2 hok
      rw [hstep] at hok
      have hb2 : b2 = applyBookUpdates book (approveUpdateData updates) now := by
        cases hok; rfl
      subst hb2
      refine ⟨?_, ?_, ?_, ?_⟩
      · cases updates <;>
          simp [applyBookUpdates, approveUpdateData, hasAllowedField]
      · intro u p hu hp hp0
        subst hu
        have htr : jsTruthyNum u.final_price = true := by
          rw [hp]; simp [jsTruthyNum, hp0]
        simp [applyBookUpdates, approveUpdateData, hasAllowedField, htr, hp,
          jsTruthyNum, hp0]
      · intro u hu htr
        subst hu
        simp [applyBookUpdates, approveUpdateData, hasAllowedField, htr]
      · intro hu
        subst hu
        simp [applyBookUpdates, approveUpdateData, hasAllowedField]

/-- **C2 witness.** -/
theorem C2_amended_witness :
    (approveBook [pendingBookFixture] "b2"
      (some { final_price := some (1499/100) }) "2025-10-02T00:00:00Z").isOk
      = true :=
  (C2_approveBook_amended [pendingBookFixture] "b2"
    (some { final_price := some (1499/100) }) "2025-10-02T00:00:00Z"
    pendingBookFixture rfl).1.mpr (by decide)

/-- A two-step `||` chain ending in a non-empty literal default equals
the presence-as-non-empty precedence cascade. -/
theorem jsOrStr_chain_getD (a b : Option String) (d : String) :
    (jsOrStr (jsOrStr a b) (some d)).getD d =
      match presentNonempty a with
      | some t => t
      | none =>
          match presentNonempty b with
          | some t => t
          | none => d := by
  rcases a with _ | s
  · rcases b with _ | t
    · rfl
    · by_cases ht : t = "" <;>
        simp [jsOrStr, jsTruthyStr, presentNonempty, ht]
  · by_cases hs : s = ""
    · rcases b with _ | t
      · simp [jsOrStr, jsTruthyStr, presentNonempty, hs]
      · by_cases ht : t = "" <;>
          simp [jsOrStr, jsTruthyStr, presentNonempty, hs, ht]
    · simp [jsOrStr, jsTruthyStr, presentNonempty, hs]

/-- A single JS `||` equals presence-as-non-empty precedence with the
second operand passed through unmodified. -/
theorem jsOrStr_eq_presentNonempty (a b : Option String) :
    jsOrStr a b =
      match presentNonempty a with
      | some s => some s
      | none => b := by
  rcases a with _ | s
  · rfl
  · by_cases hs : s = "" <;> simp [jsOrStr, jsTruthyStr, presentNonempty, hs]

/-- A truthiness-guarded two-way cascade returning `none` at the end
equals the presence-as-non-empty cascade. -/
theorem ifTruthy_chain (g o : Option String) :
    (if jsTruthyStr g then g else if jsTruthyStr o then o else none) =
      match presentNonempty g with
      | some c => some c
      | none =>
          match presentNonempty o with
          | some c => some c
          | none => none := by
  rcases g with _ | s
  · rcases o with _ | t
    · rfl
    · by_cases ht : t = "" <;>
        simp [jsTruthyStr, presentNonempty, ht]
  · by_cases hs : s = ""
    · rcases o with _ | t
      · simp [jsTruthyStr, presentNonempty, hs]
      · by_cases ht : t = "" <;>
          simp [jsTruthyStr, presentNonempty, hs, ht]
    · simp [jsTruthyStr, presentNonempty, hs]

/-- **C3 counterexample.**  The claim says merged title is B's (Google
Books) "if present".  With B's title present but empty and A's title
`"The Moonstone"`, the code's `||` chain skips B's present value and
returns A's. -/
theorem C3_counterexample :
    emptyTitleExternalFixture.google_books.bind (fun g => g.title) = some ""
    ∧ (mergeMetadata emptyTitleExternalFixture).title = "The Moonstone"
    ∧ (mergeMetadata emptyTitleExternalFixture).title ≠ "" :=
  ⟨rfl, rfl, by decide⟩

/-- **C3 (amended).**  `mergeMetadata` prefers provider B field by field
where presence means a *non-empty* value: title is B's if non-empty, else
A's if non-empty, else `"Unknown Title"`; author is B's authors joined
with `", "` if the list is non-empty, else A's, else `"Unknown Author"`;
description is B's if non-empty, else A's value unmodified; the cover
reference is B's if non-empty, else A's if non-empty, else absent (no
synthetic URL). -/
theorem C3_mergeMetadata_amended (external : ExternalMetadata) :
    (mergeMetadata external).title = policyTitle external
    ∧ (mergeMetadata external).author = policyAuthor external
    ∧ (mergeMetadata external).description = policyDescription external
    ∧ (mergeMetadata external).cover_url = policyCover external := by
  obtain ⟨ol, gb⟩ := external
  refine ⟨?_, ?_, ?_, ?_⟩
  · simpa [mergeMetadata, policyTitle] using
      jsOrStr_chain_getD (gb.bind (fun g => g.title))
        (ol.bind (fun o => o.title)) "Unknown Title"
  · rcases gb with _ | g
    · rcases ol with _ | o
      · rfl
      · by_cases ho : o.authors = [] <;>
          simp [mergeMetadata, policyAuthor, extractAuthor,
            extractAuthorOpenLibrary, ho, List.length_pos]
    · by_cases hg : g.authors = []
      · rcases ol with _ | o
        · simp [mergeMetadata, policyAuthor, extractAuthor,
            extractAuthorOpenLibrary, hg]
        · by_cases ho : o.authors = [] <;>
            simp [mergeMetadata, policyAuthor, extractAuthor,
              extractAuthorOpenLibrary, hg, ho, List.length_pos]
      · simp [mergeMetadata, policyAuthor, extractAuthor,
          extractAuthorOpenLibrary, hg, List.length_pos]
  · simpa [mergeMetadata, policyDescription] using
      jsOrStr_eq_presentNonempty (gb.bind (fun g => g.description))
        (ol.bind (fun o => o.description))
  · simpa [mergeMetadata, policyCover, extractCoverUrl] using
      ifTruthy_chain (gb.bind (fun g => g.cover_url))
        (ol.bind (fun o => o.cover_url))

/-- **C4.**  `fetchMetadata` fails — with a 404 `BookstoreError` — if and
only if both providers' results are absent; otherwise it returns exactly
the results that exist.  A rejected provider promise is indistinguishable
from a fulfilled absent result, so one provider's failure never discards
the other's data; and when both are absent, `ingestBook` propagates the
404 and persists nothing. -/
theorem C4_fetchMetadata_spec (isbn : String) (ol : Settled OpenLibraryData)
    (gb : Settled GoogleBooksData) :
    ((fetchMetadata isbn ol gb).isOk = true ↔
      ¬(ol.value = none ∧ gb.value = none))
    ∧ (ol.value = none ∧ gb.value = none →
        fetchMetadata isbn ol gb =
          .error { message := "Could not fetch metadata for ISBN: " ++ isbn,
                   statusCode := 404 })
    ∧ (∀ md, fetchMetadata isbn ol gb = .ok md →
        md.open_library = ol.value ∧ md.google_books = gb.value)
    ∧ fetchMetadata isbn .rejected gb = fetchMetadata isbn (.fulfilled none) gb
    ∧ fetchMetadata isbn ol .rejected = fetchMetadata isbn ol (.fulfilled none)
    ∧ (∀ req world db, world.openLibrary.value = none →
        world.googleBooks.value = none →
        isValidISBN req.isbn = true → ¬req.cost_price ≤ 0 →
        getBookByISBN db req.isbn = none →
        ingestBook req world db =
          (.error { message := "Failed to fetch metadata: " ++
                      ("Could not fetch metadata for ISBN: " ++ req.isbn),
                    statusCode := 404 }, db)) := by
  refine ⟨?_, ?_, ?_, rfl, rfl, ?_⟩
  · rcases hol : ol.value with _ | o <;> rcases hgb : gb.value with _ | g <;>
      simp [fetchMetadata, hol, hgb, Except.isOk, Except.toBool]
  · rintro ⟨h1, h2⟩
    simp [fetchMetadata, h1, h2]
  · intro md hmd
    rcases hol : ol.value with _ | o <;> rcases hgb : gb.value with _ | g <;>
      simp [fetchMetadata, hol, hgb] at hmd <;>
      simp [← hmd]
  · intro req world db h1 h2 h3 h4 h5
    simp [ingestBook, ingestPrepare, h3, h4, h5, fetchMetadata, h1, h2]

/-- **C4 witness.** -/
theorem C4_fetchMetadata_witness :
    ingestBook
      { isbn := "9780000000003", condition := "good", cost_price := 5 }
      { openLibrary := .rejected, googleBooks := .fulfilled none,
        enrichmentFails := false, newId := "id-1",
        now := "2025-10-02T00:00:00Z", coverDownload := .failed,
        coverStore := .failed }
      [] =
      (.error { message := "Failed to fetch metadata: " ++
                  ("Could not fetch metadata for ISBN: " ++ "9780000000003"),
                statusCode := 404 }, []) :=
  (C4_fetchMetadata_spec "9780000000003" .rejected (.fulfilled none)).2.2.2.2.2
    { isbn := "9780000000003", condition := "good", cost_price := 5 }
    { openLibrary := .rejected, googleBooks := .fulfilled none,
      enrichmentFails := false, newId := "id-1",
      now := "2025-10-02T00:00:00Z", coverDownload := .failed,
      coverStore := .failed }
    [] rfl rfl (by decide) (by norm_num) rfl

/-- A failed transfer always returns the original URL: every non-success
path of `uploadBookCover` lands in the catch fallback. -/
theorem uploadBookCover_transferFails (bookId imageUrl : String)
    (download : FetchOutcome) (store : PutOutcome)
    (h : transferFails download store = true) :
    uploadBookCover bookId imageUrl download store = imageUrl := by
  cases download <;> cases store <;>
    simp_all [transferFails, uploadBookCover]

/-- A successful `fetchMetadata` returned exactly the two settled
provider results. -/
theorem fetchMetadata_ok_eq (isbn : String) (ol : Settled OpenLibraryData)
    (gb : Settled GoogleBooksData) (md : ExternalMetadata)
    (h : fetchMetadata isbn ol gb = .ok md) :
    md = { open_library := ol.value, google_books := gb.value } := by
  unfold fetchMetadata at h
  by_cases hcond : (Option.isNone ol.value && Option.isNone gb.value) = true
  · simp [hcond] at h
  · simp [hcond] at h
    exact h.symm

/-- A successful `ingestPrepare` merged exactly the fetched provider
results. -/
theorem ingestPrepare_ok_merged (request : IngestBookRequest)
    (db : List Book) (ol : Settled OpenLibraryData)
    (gb : Settled GoogleBooksData) (ef : Bool) (prep : IngestPrep)
    (h : ingestPrepare request db ol gb ef = .ok prep) :
    prep.merged = mergeMetadata
      { open_library := ol.value, google_books := gb.value } := by
  unfold ingestPrepare at h
  split at h
  · exact absurd h (by simp)
  · split at h
    · exact absurd h (by simp)
    · split at h
      · exact absurd h (by simp)
      · split at h
        · exact absurd h (by simp)
        · rename_i md heq
          have hmd := fetchMetadata_ok_eq request.isbn ol gb md heq
          simp only [Except.ok.injEq] at h
          rw [← h]
          simp [hmd]

/-- The response book of `ingestFinalize` keeps the merged cover
reference whenever the transfer failed. -/
theorem ingestFinalize_cover_on_failure (request : IngestBookRequest)
    (prep : IngestPrep) (newId now : String) (download : FetchOutcome)
    (store : PutOutcome) (db : List Book)
    (h : transferFails download store = true) :
    (ingestFinalize request prep newId now download store db).1.book.cover_url
      = prep.merged.cover_url
    ∧ (ingestFinalize request prep newId now download store db).1.success
      = true := by
  unfold ingestFinalize createBook
  dsimp only
  split_ifs with h1 h2
  · rw [uploadBookCover_transferFails _ _ _ _ h] at h2
    exact absurd rfl h2
  · exact ⟨rfl, rfl⟩
  · exact ⟨rfl, rfl⟩

/-- **C6.**  The asset transfer never fails the caller: on any failure it
returns the original external URL unchanged; the transfer outcome never
affects whether ingestion succeeds; and under a failed transfer a
successful ingestion's book still carries the merged (original external)
cover reference. -/
theorem C6_asset_transfer_never_blocks :
    (∀ bookId imageUrl download store, transferFails download store = true →
        uploadBookCover bookId imageUrl download store = imageUrl)
    ∧ (∀ req world db download store,
        ((ingestBook req
            { world with coverDownload := download, coverStore := store }
            db).1).isOk =
          ((ingestBook req world db).1).isOk)
    ∧ (∀ req world db resp db2,
        transferFails world.coverDownload world.coverStore = true →
        ingestBook req world db = (.ok resp, db2) →
        resp.success = true ∧
        resp.book.cover_url =
          (mergeMetadata
            { open_library := world.openLibrary.value,
              google_books := world.googleBooks.value }).cover_url) := by
  refine ⟨uploadBookCover_transferFails, ?_, ?_⟩
  · intro req world db download store
    obtain ⟨wol, wgb, wef, wid, wnow, wd, ws⟩ := world
    simp only [ingestBook]
    cases hprep : ingestPrepare req db wol wgb wef <;> rfl
  · intro req world db resp db2 hfail hok
    obtain ⟨wol, wgb, wef, wid, wnow, wd, ws⟩ := world
    simp only [ingestBook] at hok
    cases hprep : ingestPrepare req db wol wgb wef with
    | error e => rw [hprep] at hok; exact absurd hok (by simp)
    | ok prep =>
        rw [hprep] at hok
        have hresp : resp = (ingestFinalize req prep wid wnow wd ws db).1 := by
          cases hok; rfl
        subst hresp
        have hfin := ingestFinalize_cover_on_failure req prep wid wnow wd ws db
          hfail
        have hmerged := ingestPrepare_ok_merged req db wol wgb wef prep hprep
        exact ⟨hfin.2, by rw [hfin.1, hmerged]⟩

/-- **C6 witness.** -/
theorem C6_asset_transfer_witness :
    uploadBookCover "book-1" "https://covers.example.org/a.jpg"
      (.ok (some "image/png")) .failed = "https://covers.example.org/a.jpg" :=
  C6_asset_transfer_never_blocks.1 "book-1" "https://covers.example.org/a.jpg"
    (.ok (some "image/png")) .failed rfl

/-- **C7.**  `updateBook` on an existing record changes only the
allow-listed fields plus the update timestamp — `id`, `isbn`,
`condition`, `cost_price`, `created_at` (and `sold_at`) are never
touched — and a payload with no allowed field returns the unmodified
current record instead of failing. -/
theorem C7_updateBook_allowlist (db : List Book) (id now : String)
    (existing : Book) (updates : BookData)
    (h : getBook db id = some existing) :
    (updateBook db id updates now).map Prod.fst =
      some (applyBookUpdates existing updates now)
    ∧ (applyBookUpdates existing updates now).id = existing.id
    ∧ (applyBookUpdates existing updates now).isbn = existing.isbn
    ∧ (applyBookUpdates existing updates now).condition = existing.condition
    ∧ (applyBookUpdates existing updates now).cost_price = existing.cost_price
    ∧ (applyBookUpdates existing updates now).created_at = existing.created_at
    ∧ (applyBookUpdates existing updates now).sold_at = existing.sold_at
    ∧ (hasAllowedField updates = false →
        applyBookUpdates existing updates now = existing)
    ∧ (hasAllowedField updates = true →
        (applyBookUpdates existing updates now).updated_at = now) := by
  by_cases hA : hasAllowedField updates = true
  · simp [updateBook, h, applyBookUpdates, hA]
  · simp [updateBook, h, applyBookUpdates, hA]

/-- **C7 witness.** -/
theorem C7_updateBook_witness :
    (updateBook [removedBookFixture] "b1" {} "2025-10-03T00:00:00Z").map
      Prod.fst = some removedBookFixture :=
  by
    have hmain := C7_updateBook_allowlist [removedBookFixture] "b1"
      "2025-10-03T00:00:00Z" removedBookFixture {} rfl
    rw [hmain.1, hmain.2.2.2.2.2.2.2.1 (by decide)]

/-- **C9.**  Keyword search returns only live, in-stock books that the
full-text index matched, in ascending bm25-score order (never re-sorted
descending), and a query matching zero live books yields a successful
empty result with `total = 0` from the search route. -/
theorem C9_search_spec (books : List (ℕ × Book)) (fts : List FtsRow)
    (matchScore : FtsRow → Option ℚ) (limit : ℕ) (q : String) :
    (∀ b ∈ searchBooksByKeyword books fts matchScore limit,
        b.status = .live ∧ b.in_stock = true
        ∧ ∃ row ∈ fts, (matchScore row).isSome ∧ (row.rowid, b) ∈ books)
    ∧ List.Pairwise (fun x y : ℚ × Book => x.1 ≤ y.1)
        ((sortByScore (joinLiveMatches books fts matchScore)).take limit)
    ∧ searchBooksByKeyword books fts matchScore limit =
        ((sortByScore (joinLiveMatches books fts matchScore)).take limit).map
          Prod.snd
    ∧ (jsTruthyStr (some q) = true → (jsTrim q).length ≠ 0 →
        joinLiveMatches books fts matchScore = [] →
        searchBooksRoute (some q) limit books fts matchScore =
          .ok { query := q, results := [], total := 0 }) := by
  refine ⟨?_, ?_, rfl, ?_⟩
  · intro b hb
    simp only [searchBooksByKeyword, List.mem_map] at hb
    obtain ⟨p, hpTake, hpb⟩ := hb
    have hpSorted := List.mem_of_mem_take hpTake
    have hpJ : p ∈ joinLiveMatches books fts matchScore := by
      simpa [sortByScore] using hpSorted
    simp only [joinLiveMatches, List.mem_filterMap] at hpJ
    obtain ⟨row, hrow, hf⟩ := hpJ
    cases hms : matchScore row with
    | none => rw [hms] at hf; simp at hf
    | some score =>
        rw [hms] at hf
        simp only [Option.bind_eq_some] at hf
        obtain ⟨pr, hfind, hif⟩ := hf
        by_cases hcond : pr.2.status = BookStatus.live ∧ pr.2.in_stock = true
        · rw [if_pos hcond] at hif
          cases hif
          have hb2 : pr.2 = b := hpb
          have hmem := List.mem_of_find?_eq_some hfind
          have hpred := List.find?_some hfind
          have hrid : pr.1 = row.rowid := by simpa using hpred
          subst hb2
          refine ⟨hcond.1, hcond.2, row, hrow, by simp [hms], ?_⟩
          rw [← hrid]
          exact hmem
        · rw [if_neg hcond] at hif
          simp at hif
  · have hs := List.sorted_insertionSort
      (r := fun x y : ℚ × Book => x.1 ≤ y.1)
      (joinLiveMatches books fts matchScore)
    exact List.Pairwise.sublist (List.take_sublist _ _) hs
  · intro h1 h2 hJ
    simp [searchBooksRoute, h1, h2, searchBooksByKeyword, hJ, sortByScore,
      List.insertionSort]

/-- **C9 witness.** -/
theorem C9_search_witness :
    searchBooksRoute (some "mystery") 20 [] [] (fun _ => none) =
      .ok { query := "mystery", results := [], total := 0 } :=
  (C9_search_spec [] [] (fun _ => none) 20 "mystery").2.2.2 (by decide)
    (by decide) rfl

end GoodGrails
